import Mathlib

/-!
Shallow embedding of the Outcome Projection Engine of the `yourfuture`
repository (`src/unnamed/part_000`): the domain metric models, the risk
modulation constants, the projection generator `generateProjectionData`
(source lines 70-137) and the advisory merge flow `runAnalysis`
(source lines 140-178).  Numeric values are modelled as real numbers
(the source computes with JS doubles over small rational constants and
`Math.sin`); machine integer parsing (`parseInt`) is modelled exactly on
integers.
-/

namespace YourFuture

/-- The four simulation modes of the app (`SimulationMode` in the source). -/
inductive SimulationMode
  | PERSONAL
  | STUDENT
  | BUSINESS
  | GOVERNMENT
  deriving DecidableEq, Repr

/-- Risk classifications the advisory service can return; the source passes
`riskLevel : string | null` and compares against these four literals, so the
baseline `null` is modelled as `none : Option Risk`. -/
inductive Risk
  | DANGER
  | WARNING
  | NEUTRAL
  | POSITIVE
  deriving DecidableEq, Repr

/-- Health status options of the personal form (`EXCELLENT`/`GOOD`/else). -/
inductive HealthStatus
  | EXCELLENT
  | GOOD
  | AVERAGE
  deriving DecidableEq, Repr

/-- Social status options of the personal form. -/
inductive SocialStatus
  | SINGLE
  | MARRIED
  | FAMILY
  deriving DecidableEq, Repr

/-- Lifestyle options of the personal form; the engine only tests `STRESSED`. -/
inductive Lifestyle
  | ACTIVE
  | STRESSED
  deriving DecidableEq, Repr

/-- `PersonalProfile` record from the source: numeric fields are user-entered
strings. -/
structure PersonalProfile where
  fullName : String
  age : String
  jobTitle : String
  monthlyIncome : String
  savings : String
  healthStatus : HealthStatus
  socialStatus : SocialStatus
  lifestyle : Lifestyle
  decision : String
  deriving DecidableEq, Repr

/-- `BusinessProfile` record from the source. -/
structure BusinessProfile where
  companyName : String
  industry : String
  capital : String
  targetMarket : String
  decision : String
  deriving DecidableEq, Repr

/-- `GovernmentProfile` record from the source. -/
structure GovernmentProfile where
  entityName : String
  sector : String
  population : String
  challenges : String
  goals : String
  planningPeriod : String
  deriving DecidableEq, Repr

/-- Student level options of the student form. -/
inductive StudentLevel
  | PRIMARY
  | MIDDLE
  | SECONDARY
  deriving DecidableEq, Repr

/-- Student stream options of the student form. -/
inductive StudentStream
  | SCIENTIFIC
  | LITERARY
  deriving DecidableEq, Repr

/-- `TimelinePoint`: a period label plus one optional field per metric; the
source initialises `point = \x7b period \x7d` and populates only the fields
of the active mode. -/
structure TimelinePoint where
  period : String
  health : Option ℝ
  wealth : Option ℝ
  relationships : Option ℝ
  happiness : Option ℝ
  revenue : Option ℝ
  marketShare : Option ℝ
  innovation : Option ℝ
  economicGrowth : Option ℝ
  publicSatisfaction : Option ℝ
  socialStability : Option ℝ
  academicFit : Option ℝ
  marketDemand : Option ℝ
  skillDevelopment : Option ℝ
  financialProspects : Option ℝ

/-- A fresh point with only the period label set, as at source line 95. -/
def emptyPoint (yearLabel : String) : TimelinePoint :=
  ⟨yearLabel, none, none, none, none, none, none, none, none, none, none,
   none, none, none, none⟩

/-- The list of metric values actually populated on a point. -/
def TimelinePoint.metrics (p : TimelinePoint) : List ℝ :=
  [p.health, p.wealth, p.relationships, p.happiness, p.revenue,
   p.marketShare, p.innovation, p.economicGrowth, p.publicSatisfaction,
   p.socialStability, p.academicFit, p.marketDemand, p.skillDevelopment,
   p.financialProspects].filterMap id

/-- Value of a hexadecimal digit character, as JS `parseInt` accepts. -/
def hexDigitValue (c : Char) : Option ℕ :=
  if '0' ≤ c ∧ c ≤ '9' then some (c.toNat - '0'.toNat)
  else if 'a' ≤ c ∧ c ≤ 'f' then some (c.toNat - 'a'.toNat + 10)
  else if 'A' ≤ c ∧ c ≤ 'F' then some (c.toNat - 'A'.toNat + 10)
  else none

/-- Value of a digit character under a given radix. -/
def digitValue (radix : ℕ) (c : Char) : Option ℕ :=
  match hexDigitValue c with
  | some v => if v < radix then some v else none
  | none => none

/-- JS `parseInt(s)` with no radix argument: skip leading whitespace, read an
optional sign, switch to radix 16 after a `0x`/`0X` marker, then take the
longest run of digits; `none` models the `NaN` result when no digit is
found. -/
def jsParseInt (s : String) : Option ℤ :=
  let cs := s.data.dropWhile Char.isWhitespace
  let signed : ℤ × List Char :=
    match cs with
    | '-' :: rest => (-1, rest)
    | '+' :: rest => (1, rest)
    | rest => (1, rest)
  let based : ℕ × List Char :=
    match signed.2 with
    | '0' :: 'x' :: rest => (16, rest)
    | '0' :: 'X' :: rest => (16, rest)
    | rest => (10, rest)
  let digits := based.2.takeWhile (fun c => (digitValue based.1 c).isSome)
  if digits = [] then none
  else
    some (signed.1 *
      (digits.foldl (fun a c => a * based.1 + (digitValue based.1 c).getD 0) 0 : ℕ))

/-- `parseInt(s) || 0` as used at source lines 98-99: an unparseable value
(JS `NaN`) falls back to `0`. -/
def parseIntOr0 (s : String) : ℤ :=
  (jsParseInt s).getD 0

/-- Modelled from the spec: the SWOT block of an `AnalysisResult` (§3); the
`types.ts` declaration is not part of the provided sources. -/
structure Swot where
  strengths : List String
  weaknesses : List String
  opportunities : List String
  threats : List String

/-- Modelled from the spec: the `AnalysisResult` produced by the external
advisory service (§3) — `riskLevel` excludes the internal `NONE` baseline;
the `types.ts` declaration is not part of the provided sources. -/
structure AnalysisResult where
  riskLevel : Risk
  swot : Swot
  prediction : String
  strategy : String
  executionSteps : List String

/-- The form state the `App` component holds when an analysis is requested
(source lines 23-44). -/
structure ProfilesState where
  personalProfile : PersonalProfile
  studentLevel : StudentLevel
  studentStream : StudentStream
  subjects : List (String × String)
  electiveSubject : String
  hobbies : String
  bizProfile : BusinessProfile
  govProfile : GovernmentProfile

/-- A JSON string literal, for the serialization model. -/
def jsonString (s : String) : String :=
  "\x22" ++ s ++ "\x22"

/-- A JSON object built from already-serialized field values: the model of
`JSON.stringify` applied to the record literals of source lines 150-163. -/
def jsonObject (fields : List (String × String)) : String :=
  "\x7b" ++
    String.intercalate "," (fields.map (fun kv => jsonString kv.1 ++ ":" ++ kv.2)) ++
  "\x7d"

/-- Tag string of a student level. -/
def StudentLevel.tag : StudentLevel → String
  | .PRIMARY => "PRIMARY"
  | .MIDDLE => "MIDDLE"
  | .SECONDARY => "SECONDARY"

/-- Tag string of a student stream. -/
def StudentStream.tag : StudentStream → String
  | .SCIENTIFIC => "SCIENTIFIC"
  | .LITERARY => "LITERARY"

/-- `subjects[electiveSubject] || '0'` of source line 156: a missing or empty
grade falls back to `"0"`. -/
def electiveGrade (subjects : List (String × String)) (elective : String) : String :=
  match subjects.lookup elective with
  | some v => if v = "" then "0" else v
  | none => "0"

/-- The spread-with-override `\x7b ...subjects, [electiveSubject]: ... \x7d`
of source line 156: an existing key keeps its position with the new value, a
new key is appended. -/
def withElective (subjects : List (String × String)) (elective v : String) :
    List (String × String) :=
  if (subjects.lookup elective).isSome then
    subjects.map (fun kv => if kv.1 = elective then (kv.1, v) else kv)
  else subjects ++ [(elective, v)]

/-- `promptData` of source lines 148-163: the serialized profile sent to the
advisory service, chosen by the active mode.  Every branch serializes a
record, so the result always starts with a brace. -/
def promptData (mode : SimulationMode) (s : ProfilesState) : String :=
  match mode with
  | .PERSONAL =>
      jsonObject
        [("fullName", jsonString s.personalProfile.fullName),
         ("age", jsonString s.personalProfile.age),
         ("jobTitle", jsonString s.personalProfile.jobTitle),
         ("monthlyIncome", jsonString s.personalProfile.monthlyIncome),
         ("savings", jsonString s.personalProfile.savings),
         ("decision", jsonString s.personalProfile.decision)]
  | .STUDENT =>
      jsonObject
        [("level", jsonString s.studentLevel.tag),
         ("stream", jsonString s.studentStream.tag),
         ("subjects",
          jsonObject
            ((withElective s.subjects s.electiveSubject
                (electiveGrade s.subjects s.electiveSubject)).map
              (fun kv => (kv.1, jsonString kv.2)))),
         ("hobbies", jsonString s.hobbies)]
  | .BUSINESS =>
      jsonObject
        [("companyName", jsonString s.bizProfile.companyName),
         ("industry", jsonString s.bizProfile.industry),
         ("capital", jsonString s.bizProfile.capital),
         ("targetMarket", jsonString s.bizProfile.targetMarket),
         ("decision", jsonString s.bizProfile.decision)]
  | .GOVERNMENT =>
      jsonObject
        [("entityName", jsonString s.govProfile.entityName),
         ("sector", jsonString s.govProfile.sector),
         ("population", jsonString s.govProfile.population),
         ("challenges", jsonString s.govProfile.challenges),
         ("goals", jsonString s.govProfile.goals)]

noncomputable section

/-- The `clamp` helper of source line 91. -/
def clamp (val : ℝ) : ℝ :=
  max 0 (min 100 val)

/-- `growthFactor` assigned at source lines 76-88 (computed per risk level;
the source never reads it afterwards). -/
def growthFactor (riskLevel : Option Risk) : ℝ :=
  match riskLevel with
  | some .DANGER => 0.8
  | some .WARNING => 0.95
  | some .POSITIVE => 1.1
  | _ => 1.0

/-- `decayFactor` assigned at source lines 76-88. -/
def decayFactor (riskLevel : Option Risk) : ℝ :=
  match riskLevel with
  | some .DANGER => 5
  | some .WARNING => 2
  | some .POSITIVE => -2
  | _ => 0

/-- `incomeScore` of source line 98. -/
def incomeScore (p : PersonalProfile) : ℝ :=
  min 100 ((parseIntOr0 p.monthlyIncome : ℝ) / 5000 * 50)

/-- `savingsScore` of source line 99. -/
def savingsScore (p : PersonalProfile) : ℝ :=
  min 100 ((parseIntOr0 p.savings : ℝ) / 10000 * 30)

/-- `healthBase` of source lines 101-102. -/
def healthBase (p : PersonalProfile) : ℝ :=
  (if p.healthStatus = .EXCELLENT then 95
   else if p.healthStatus = .GOOD then 80 else 60) -
  (if p.lifestyle = .STRESSED then 10 else 0)

/-- `wealthBase` of source line 104. -/
def wealthBase (p : PersonalProfile) : ℝ :=
  (incomeScore p + savingsScore p) / 2

/-- `yearEffect = i * (riskLevel ? decayFactor : 0)` of source line 107;
a JS `null` risk level is falsy, any string is truthy. -/
def yearEffect (riskLevel : Option Risk) (i : ℕ) : ℝ :=
  (i : ℝ) * (if riskLevel.isSome then decayFactor riskLevel else 0)

/-- `wealthEffect` of source line 108. -/
def wealthEffect (riskLevel : Option Risk) (i : ℕ) : ℝ :=
  (i : ℝ) *
    (if riskLevel = some .DANGER then -10
     else if riskLevel = some .POSITIVE then 10 else 5)

/-- `point.health` of source line 110. -/
def personalHealth (p : PersonalProfile) (riskLevel : Option Risk) (i : ℕ) : ℝ :=
  clamp ((healthBase p - ((i : ℝ) * 2)) - yearEffect riskLevel i)

/-- `point.wealth` of source line 111: note the hard-coded `0.9` damper. -/
def personalWealth (p : PersonalProfile) (riskLevel : Option Risk) (i : ℕ) : ℝ :=
  clamp ((wealthBase p + wealthEffect riskLevel i) *
    (if riskLevel = some .DANGER then 0.9 else 1))

/-- `point.relationships` of source line 112. -/
def personalRelationships (riskLevel : Option Risk) (i : ℕ) : ℝ :=
  clamp (70 - yearEffect riskLevel i)

/-- `point.happiness` of source line 113, averaging the already-clamped
sibling metrics of the same year. -/
def personalHappiness (p : PersonalProfile) (riskLevel : Option Risk) (i : ℕ) : ℝ :=
  clamp ((personalHealth p riskLevel i + personalWealth p riskLevel i +
    personalRelationships riskLevel i) / 3)

/-- `riskEffect` of the business branch, source line 117. -/
def riskEffect (riskLevel : Option Risk) : ℝ :=
  if riskLevel = some .DANGER then -10
  else if riskLevel = some .POSITIVE then 10 else 0

/-- One loop iteration of `generateProjectionData` (source lines 93-135):
the point built for year offset `i`. -/
def projectionPoint (personalProfile : PersonalProfile)
    (currentMode : SimulationMode) (riskLevel : Option Risk)
    (startYear : ℕ) (i : ℕ) : TimelinePoint :=
  let yearLabel := toString (startYear + i)
  match currentMode with
  | .PERSONAL =>
      { emptyPoint yearLabel with
        health := some (personalHealth personalProfile riskLevel i)
        wealth := some (personalWealth personalProfile riskLevel i)
        relationships := some (personalRelationships riskLevel i)
        happiness := some (personalHappiness personalProfile riskLevel i) }
  | .BUSINESS =>
      let baseGrowth : ℝ := 50
      { emptyPoint yearLabel with
        revenue := some (clamp (baseGrowth + ((i : ℝ) * 10) + ((i : ℝ) * riskEffect riskLevel)))
        marketShare := some (clamp (10 + ((i : ℝ) * 5)))
        innovation := some (clamp (80 - ((i : ℝ) * 2))) }
  | .GOVERNMENT =>
      { emptyPoint yearLabel with
        economicGrowth := some (clamp (30 + ((i : ℝ) * 4)))
        publicSatisfaction := some (clamp (50 + Real.sin (i : ℝ) * 10))
        socialStability := some (clamp (60 + ((i : ℝ) * 2))) }
  | .STUDENT =>
      let marketDemandVal : ℝ := clamp (60 + ((i : ℝ) * 5))
      let skillDevelopmentVal : ℝ := clamp (20 + ((i : ℝ) * 15))
      { emptyPoint yearLabel with
        academicFit := some (clamp (70 + ((i : ℝ) * 2)))
        marketDemand := some marketDemandVal
        skillDevelopment := some skillDevelopmentVal
        financialProspects := some (clamp (marketDemandVal * 0.8 + skillDevelopmentVal * 0.2)) }

/-- `generateProjectionData` of source lines 70-137: a loop over year offsets
`0..=5` (`years = 5`), with `startYear` standing for
`new Date().getFullYear()`. -/
def generateProjectionData (personalProfile : PersonalProfile)
    (startYear : ℕ) (currentMode : SimulationMode)
    (riskLevel : Option Risk) : List TimelinePoint :=
  (List.range (5 + 1)).map
    (projectionPoint personalProfile currentMode riskLevel startYear)

/-- The observable outcome of one `runAnalysis` cycle: the projection
published with `setData` before the advisory call (`baseline`), the
projection published when the cycle completes (`finalData`), and the stored
`analysisResult`. -/
structure RunResult where
  baseline : List TimelinePoint
  finalData : List TimelinePoint
  analysisResult : Option AnalysisResult

/-- `runAnalysis` of source lines 140-178, with the external advisory call
abstracted by its outcome (`advisory`): `some result` when the service
answers, `none` for a failed or empty response (spec §6 allows exactly these
two outcomes).  The baseline projection is published first (line 146); the
guard mirrors the JS truthiness test `if (promptData)` of line 165; the
result is stored and, when present, the projection is regenerated with its
risk level (lines 166-173). -/
def runAnalysis (mode : SimulationMode) (s : ProfilesState) (startYear : ℕ)
    (advisory : Option AnalysisResult) : RunResult :=
  let baseline := generateProjectionData s.personalProfile startYear mode none
  if promptData mode s = "" then
    ⟨baseline, baseline, none⟩
  else
    match advisory with
    | some result =>
        ⟨baseline,
         generateProjectionData s.personalProfile startYear mode
           (some result.riskLevel),
         some result⟩
    | none => ⟨baseline, baseline, none⟩

/-- The concrete personal profile of the spec's §8 Personal scenario:
income 5000, savings 10000, GOOD health, ACTIVE lifestyle. -/
def c4Profile : PersonalProfile :=
  ⟨"", "", "", "5000", "10000", .GOOD, .SINGLE, .ACTIVE, ""⟩

/-- A personal profile with an unparseable income and an empty savings
string. -/
def c9Profile : PersonalProfile :=
  ⟨"", "", "", "abc", "", .GOOD, .SINGLE, .ACTIVE, ""⟩

/-- The damper the source actually multiplies into the wealth term at line
111: `0.9` under DANGER and `1` otherwise (stated from the spec sentence
under comparison; the source writes the conditional inline). -/
def wealthDamper : Option Risk → ℝ
  | some .DANGER => 0.9
  | _ => 1

end

end YourFuture

namespace YourFuture

theorem clamp_nonneg (v : ℝ) : 0 ≤ clamp v :=
  le_max_left 0 _

theorem clamp_le_onehundred (v : ℝ) : clamp v ≤ 100 :=
  max_le (by norm_num) (min_le_left _ _)

theorem clamp_mono {x y : ℝ} (h : x ≤ y) : clamp x ≤ clamp y :=
  max_le_max le_rfl (min_le_min le_rfl h)

theorem clamp_eq_self {x : ℝ} (h0 : 0 ≤ x) (h1 : x ≤ 100) : clamp x = x := by
  rw [clamp, min_eq_right h1, max_eq_right h0]

theorem jsonObject_ne_empty (l : List (String × String)) : jsonObject l ≠ "" := by
  intro h
  have h' := congrArg String.length h
  simp [jsonObject, String.length_append] at h'
  exact absurd h'.1.1 (by decide)

theorem promptData_ne_empty (mode : SimulationMode) (s : ProfilesState) :
    promptData mode s ≠ "" := by
  cases mode <;> exact jsonObject_ne_empty _

theorem incomeScore_c4 : incomeScore c4Profile = 50 := by
  have h : jsParseInt c4Profile.monthlyIncome = some 5000 := by decide
  rw [incomeScore, parseIntOr0, h]
  norm_num [min_def]

theorem savingsScore_c4 : savingsScore c4Profile = 30 := by
  have h : jsParseInt c4Profile.savings = some 10000 := by decide
  rw [savingsScore, parseIntOr0, h]
  norm_num [min_def]

theorem wealthBase_c4 : wealthBase c4Profile = 40 := by
  rw [wealthBase, incomeScore_c4, savingsScore_c4]
  norm_num

theorem healthBase_c4 : healthBase c4Profile = 80 := by
  simp [healthBase, c4Profile]

/-- C1: for every mode, every risk classification (including the `null`
baseline), every profile and every generated point, every populated metric
lies in `[0, 100]`. -/
theorem c1_metrics_clamped (personalProfile : PersonalProfile) (startYear : ℕ)
    (currentMode : SimulationMode) (riskLevel : Option Risk)
    (pt : TimelinePoint)
    (hpt : pt ∈ generateProjectionData personalProfile startYear currentMode riskLevel)
    (x : ℝ) (hx : x ∈ pt.metrics) : 0 ≤ x ∧ x ≤ 100 := by
  rw [generateProjectionData, List.mem_map] at hpt
  obtain ⟨i, -, rfl⟩ := hpt
  cases currentMode with
  | PERSONAL =>
      simp [projectionPoint, emptyPoint, TimelinePoint.metrics,
        personalHealth, personalWealth, personalRelationships,
        personalHappiness] at hx
      rcases hx with rfl | rfl | rfl | rfl <;>
        exact ⟨clamp_nonneg _, clamp_le_onehundred _⟩
  | STUDENT =>
      simp [projectionPoint, emptyPoint, TimelinePoint.metrics] at hx
      rcases hx with rfl | rfl | rfl | rfl <;>
        exact ⟨clamp_nonneg _, clamp_le_onehundred _⟩
  | BUSINESS =>
      simp [projectionPoint, emptyPoint, TimelinePoint.metrics] at hx
      rcases hx with rfl | rfl | rfl <;>
        exact ⟨clamp_nonneg _, clamp_le_onehundred _⟩
  | GOVERNMENT =>
      simp [projectionPoint, emptyPoint, TimelinePoint.metrics] at hx
      rcases hx with rfl | rfl | rfl <;>
        exact ⟨clamp_nonneg _, clamp_le_onehundred _⟩

/-- C1 witness at a concrete personal point. -/
theorem c1_metrics_clamped_witness :
    0 ≤ personalHealth c4Profile none 0 ∧ personalHealth c4Profile none 0 ≤ 100 :=
  c1_metrics_clamped c4Profile 2025 .PERSONAL none
    (projectionPoint c4Profile .PERSONAL none 2025 0)
    (by rw [generateProjectionData]; exact List.mem_map_of_mem _ (by decide))
    (personalHealth c4Profile none 0)
    (by simp [projectionPoint, emptyPoint, TimelinePoint.metrics])

/-- C8: every projection has exactly 6 points with period labels
`startYear + 0 .. startYear + 5`. -/
theorem c8_projection_shape (personalProfile : PersonalProfile) (startYear : ℕ)
    (currentMode : SimulationMode) (riskLevel : Option Risk) :
    (generateProjectionData personalProfile startYear currentMode riskLevel).length = 6
    ∧ (generateProjectionData personalProfile startYear currentMode riskLevel).map
        TimelinePoint.period
      = (List.range 6).map (fun i => toString (startYear + i)) := by
  cases currentMode <;> exact ⟨rfl, rfl⟩

/-- C4: the concrete Personal scenario at year offset 0. -/
theorem c4_personal_concrete :
    incomeScore c4Profile = 50 ∧ savingsScore c4Profile = 30
    ∧ wealthBase c4Profile = 40
    ∧ personalHealth c4Profile none 0 = 80
    ∧ personalWealth c4Profile none 0 = 40
    ∧ personalRelationships none 0 = 70
    ∧ personalHappiness c4Profile none 0 = clamp ((80 + 40 + 70) / 3) := by
  have hh : personalHealth c4Profile none 0 = 80 := by
    rw [personalHealth, healthBase_c4,
      show yearEffect none 0 = ((0 : ℕ) : ℝ) * 0 from rfl]
    rw [show ((80 : ℝ) - ((0 : ℕ) : ℝ) * 2) - ((0 : ℕ) : ℝ) * 0 = 80 by norm_num]
    exact clamp_eq_self (by norm_num) (by norm_num)
  have hw : personalWealth c4Profile none 0 = 40 := by
    rw [show personalWealth c4Profile none 0
        = clamp ((wealthBase c4Profile + wealthEffect none 0) * 1) from rfl,
      wealthBase_c4, show wealthEffect none 0 = ((0 : ℕ) : ℝ) * 5 from rfl]
    rw [show ((40 : ℝ) + ((0 : ℕ) : ℝ) * 5) * 1 = 40 by norm_num]
    exact clamp_eq_self (by norm_num) (by norm_num)
  have hr : personalRelationships none 0 = 70 := by
    rw [personalRelationships, show yearEffect none 0 = ((0 : ℕ) : ℝ) * 0 from rfl]
    rw [show (70 : ℝ) - ((0 : ℕ) : ℝ) * 0 = 70 by norm_num]
    exact clamp_eq_self (by norm_num) (by norm_num)
  refine ⟨incomeScore_c4, savingsScore_c4, wealthBase_c4, hh, hw, hr, ?_⟩
  rw [personalHappiness, hh, hw, hr]

/-- C5 counterexample: at `risk = DANGER`, year 1, the wealth damper is 0.9,
not the table's `growthFactor = 0.8`. -/
theorem c5_growthFactor_counterexample :
    personalWealth c4Profile (some .DANGER) 1
      ≠ clamp ((wealthBase c4Profile + wealthEffect (some .DANGER) 1)
          * growthFactor (some .DANGER)) := by
  rw [show personalWealth c4Profile (some .DANGER) 1
      = clamp ((wealthBase c4Profile + wealthEffect (some .DANGER) 1) * 0.9) from rfl,
    wealthBase_c4, show wealthEffect (some .DANGER) 1 = ((1 : ℕ) : ℝ) * (-10) from rfl,
    show growthFactor (some .DANGER) = 0.8 from rfl]
  rw [show ((40 : ℝ) + ((1 : ℕ) : ℝ) * (-10)) * 0.9 = 27 by norm_num,
    show ((40 : ℝ) + ((1 : ℕ) : ℝ) * (-10)) * 0.8 = 24 by norm_num,
    clamp_eq_self (by norm_num) (by norm_num),
    clamp_eq_self (by norm_num) (by norm_num)]
  norm_num

/-- C5 amended: the wealth damper is 0.9 under DANGER and 1 otherwise; it
agrees with the §4.1 `growthFactor` only at NONE and NEUTRAL. -/
theorem c5_wealth_damper_amended :
    (∀ (p : PersonalProfile) (riskLevel : Option Risk) (i : ℕ),
        personalWealth p riskLevel i
          = clamp ((wealthBase p + wealthEffect riskLevel i) * wealthDamper riskLevel))
    ∧ wealthDamper none = growthFactor none
    ∧ wealthDamper (some .NEUTRAL) = growthFactor (some .NEUTRAL)
    ∧ wealthDamper (some .DANGER) ≠ growthFactor (some .DANGER)
    ∧ wealthDamper (some .WARNING) ≠ growthFactor (some .WARNING)
    ∧ wealthDamper (some .POSITIVE) ≠ growthFactor (some .POSITIVE) := by
  refine ⟨fun p r i => ?_, by norm_num [wealthDamper, growthFactor],
    by norm_num [wealthDamper, growthFactor], ?_, ?_, ?_⟩
  · rcases r with - | r
    · rfl
    · cases r <;> rfl
  · rw [show wealthDamper (some .DANGER) = 0.9 from rfl,
      show growthFactor (some .DANGER) = 0.8 from rfl]
    norm_num
  · rw [show wealthDamper (some .WARNING) = 1 from rfl,
      show growthFactor (some .WARNING) = 0.95 from rfl]
    norm_num
  · rw [show wealthDamper (some .POSITIVE) = 1 from rfl,
      show growthFactor (some .POSITIVE) = 1.1 from rfl]
    norm_num

/-- C6: the Government model ignores the risk classification, and at year
offset 2 it yields 38, clamp(50 + 10 sin 2) and 64. -/
theorem c6_government_risk_independent (p : PersonalProfile) (startYear : ℕ) :
    (∀ r1 r2 : Option Risk,
        generateProjectionData p startYear .GOVERNMENT r1
          = generateProjectionData p startYear .GOVERNMENT r2)
    ∧ ∀ r : Option Risk,
        ((generateProjectionData p startYear .GOVERNMENT r).getD 2
            (emptyPoint "")).economicGrowth = some 38
        ∧ ((generateProjectionData p startYear .GOVERNMENT r).getD 2
            (emptyPoint "")).publicSatisfaction
          = some (clamp (50 + 10 * Real.sin 2))
        ∧ ((generateProjectionData p startYear .GOVERNMENT r).getD 2
            (emptyPoint "")).socialStability = some 64 := by
  refine ⟨fun r1 r2 => rfl, fun r => ⟨?_, ?_, ?_⟩⟩
  · show some (clamp (30 + ((2 : ℕ) : ℝ) * 4)) = some 38
    rw [show (30 + ((2 : ℕ) : ℝ) * 4) = 38 by norm_num,
      clamp_eq_self (by norm_num) (by norm_num)]
  · show some (clamp (50 + Real.sin ((2 : ℕ) : ℝ) * 10))
      = some (clamp (50 + 10 * Real.sin 2))
    have : Real.sin ((2 : ℕ) : ℝ) * 10 = 10 * Real.sin 2 := by
      push_cast
      ring
    rw [this]
  · show some (clamp (60 + ((2 : ℕ) : ℝ) * 2)) = some 64
    rw [show (60 + ((2 : ℕ) : ℝ) * 2) = 64 by norm_num,
      clamp_eq_self (by norm_num) (by norm_num)]

/-- C7: personal health at year 5 is ordered DANGER ≤ NEUTRAL ≤ POSITIVE. -/
theorem c7_health_monotone (p : PersonalProfile) :
    personalHealth p (some .DANGER) 5 ≤ personalHealth p (some .NEUTRAL) 5
    ∧ personalHealth p (some .NEUTRAL) 5 ≤ personalHealth p (some .POSITIVE) 5 := by
  constructor
  · apply clamp_mono
    rw [show yearEffect (some .DANGER) 5 = ((5 : ℕ) : ℝ) * 5 from rfl,
      show yearEffect (some .NEUTRAL) 5 = ((5 : ℕ) : ℝ) * 0 from rfl]
    push_cast
    linarith
  · apply clamp_mono
    rw [show yearEffect (some .NEUTRAL) 5 = ((5 : ℕ) : ℝ) * 0 from rfl,
      show yearEffect (some .POSITIVE) 5 = ((5 : ℕ) : ℝ) * (-2) from rfl]
    push_cast
    linarith

/-- C9: unparseable or empty numeric strings default to 0, so the income and
savings scores degrade to 0 instead of failing. -/
theorem c9_parse_default_zero (p : PersonalProfile) :
    (∀ s : String, jsParseInt s = none → parseIntOr0 s = 0)
    ∧ jsParseInt "" = none
    ∧ (jsParseInt p.monthlyIncome = none → incomeScore p = 0)
    ∧ (jsParseInt p.savings = none → savingsScore p = 0) := by
  refine ⟨fun s hs => by rw [parseIntOr0, hs]; rfl, by decide,
    fun h => ?_, fun h => ?_⟩
  · rw [incomeScore, parseIntOr0, h]
    norm_num [min_def]
  · rw [savingsScore, parseIntOr0, h]
    norm_num [min_def]

/-- C9 witness: an unparseable income and an empty savings string. -/
theorem c9_parse_default_zero_witness :
    incomeScore c9Profile = 0 ∧ savingsScore c9Profile = 0 :=
  ⟨(c9_parse_default_zero c9Profile).2.2.1 (by decide),
   (c9_parse_default_zero c9Profile).2.2.2 (by decide)⟩

/-- C10: the baseline `null` pass and NEUTRAL coincide, both picking
growthFactor 1, decayFactor 0, riskEffect 0 and the `+5` wealthEffect. -/
theorem c10_none_eq_neutral :
    (∀ (p : PersonalProfile) (startYear : ℕ) (mode : SimulationMode),
        generateProjectionData p startYear mode none
          = generateProjectionData p startYear mode (some .NEUTRAL))
    ∧ growthFactor none = 1 ∧ growthFactor (some .NEUTRAL) = 1
    ∧ decayFactor none = 0 ∧ decayFactor (some .NEUTRAL) = 0
    ∧ riskEffect none = 0 ∧ riskEffect (some .NEUTRAL) = 0
    ∧ ∀ i : ℕ, wealthEffect none i = (i : ℝ) * 5
        ∧ wealthEffect (some .NEUTRAL) i = (i : ℝ) * 5 := by
  refine ⟨fun p startYear mode => ?_, by norm_num [growthFactor],
    by norm_num [growthFactor], rfl, rfl, rfl, rfl, fun i => ⟨rfl, rfl⟩⟩
  cases mode <;> rfl

/-- C2: a successful advisory outcome republishes the risk-adjusted
projection and stores the result; a failed or empty outcome keeps the
baseline as final and stores nothing. -/
theorem c2_merge_property (mode : SimulationMode) (s : ProfilesState)
    (startYear : ℕ) (result : AnalysisResult) :
    (runAnalysis mode s startYear (some result)).finalData
        = generateProjectionData s.personalProfile startYear mode
            (some result.riskLevel)
    ∧ (runAnalysis mode s startYear (some result)).analysisResult = some result
    ∧ (runAnalysis mode s startYear none).finalData
        = (runAnalysis mode s startYear none).baseline
    ∧ (runAnalysis mode s startYear none).finalData
        = generateProjectionData s.personalProfile startYear mode none
    ∧ (runAnalysis mode s startYear none).analysisResult = none := by
  have h := promptData_ne_empty mode s
  simp [runAnalysis, h]

/-- C3: the projection published at request time is the NONE baseline,
whatever the advisory outcome. -/
theorem c3_baseline_first (mode : SimulationMode) (s : ProfilesState)
    (startYear : ℕ) (advisory : Option AnalysisResult) :
    (runAnalysis mode s startYear advisory).baseline
      = generateProjectionData s.personalProfile startYear mode none := by
  unfold runAnalysis
  split
  · rfl
  · split <;> rfl

end YourFuture
